import Mathlib

/-!
Verification of the real-time synchronization layer of the
openai-assistant-swarm GUI: the server-side connection hub
(`SwarmGUIServer` in the backend source) and the client-side
reconnection + state-projection mechanism (`WebSocketContext.tsx` /
`SwarmContext.tsx` in the frontend source).

The TypeScript source is embedded shallowly: pure functions become Lean
functions, the stateful pieces (connection registry, liveness monitor,
reconnecting client) become explicit state-passing functions, and the
dynamic JSON payloads become a first-order value type `JVal`.
-/

namespace SwarmGUI

/-- JSON-like payload values carried in envelope `data` fields.  Arrays
and objects are built with explicit cons constructors (rather than
`List` arguments) so the type stays non-nested; this encodes the same
set of JSON trees. -/
inductive JVal where
  | jnull : JVal
  | jbool (b : Bool) : JVal
  | jnum (n : Int) : JVal
  | jstr (s : String) : JVal
  | jarrNil : JVal
  | jarrCons (head : JVal) (tail : JVal) : JVal
  | jobjNil : JVal
  | jobjCons (key : String) (value : JVal) (rest : JVal) : JVal
  deriving DecidableEq, Repr

/-- Frontend `Assistant` interface (SwarmContext.tsx). -/
structure Assistant where
  id : String
  name : String
  description : Option String := none
  instructions : Option String := none
  model : String
  tools : Option JVal := none
  file_ids : Option (List String) := none
  metadata : Option JVal := none
  created_at : Int := 0
  deriving DecidableEq, Repr

/-- `managerAssistantOptions` of the swarm configuration. -/
structure ManagerAssistantOptions where
  name : String
  model : String
  instructions : Option String := none
  deriving DecidableEq, Repr

/-- Frontend and backend `SwarmConfig` interface. -/
structure SwarmConfig where
  debug : Bool
  managerAssistantOptions : ManagerAssistantOptions
  deriving DecidableEq, Repr

/-- Task status union `'pending' | 'running' | 'completed' | 'failed'`. -/
inductive TaskStatus where
  | pending | running | completed | failed
  deriving DecidableEq, Repr

/-- Frontend `Task` interface (SwarmContext.tsx). -/
structure Task where
  id : String
  prompt : String
  assistantIds : List String
  status : TaskStatus
  createdAt : String
  result : Option JVal := none
  error : Option String := none
  deriving DecidableEq, Repr

/-- Frontend `SwarmState` interface: the projection state. -/
structure SwarmState where
  assistants : List Assistant
  config : SwarmConfig
  tasks : List Task
  isLoading : Bool
  isInitialized : Bool
  apiKeyConfigured : Bool
  error : Option String
  deriving DecidableEq, Repr

/-- `Partial<Task>` as used by the `UPDATE_TASK` action: the only fields
the source ever places in `updates` are `status`, `result` and `error`. -/
structure TaskUpdates where
  status : Option TaskStatus := none
  result : Option JVal := none
  error : Option String := none
  deriving DecidableEq, Repr

/-- The spread `{ ...task, ...updates }`: fields present in `updates`
override the task's fields. -/
def applyTaskUpdates (t : Task) (u : TaskUpdates) : Task :=
  { t with
    status := u.status.getD t.status
    result := match u.result with | some r => some r | none => t.result
    error := match u.error with | some e => some e | none => t.error }

/-- The `SwarmAction` union type (SwarmContext.tsx). -/
inductive SwarmAction where
  | SET_LOADING (payload : Bool)
  | SET_ASSISTANTS (payload : List Assistant)
  | ADD_ASSISTANT (payload : Assistant)
  | UPDATE_ASSISTANT (payload : Assistant)
  | REMOVE_ASSISTANT (payload : String)
  | SET_CONFIG (payload : SwarmConfig)
  | SET_TASKS (payload : List Task)
  | ADD_TASK (payload : Task)
  | UPDATE_TASK (id : String) (updates : TaskUpdates)
  | SET_INITIALIZED (payload : Bool)
  | SET_API_KEY_CONFIGURED (payload : Bool)
  | SET_ERROR (payload : Option String)
  deriving DecidableEq, Repr

/-- `initialState` of SwarmContext.tsx. -/
def initialState : SwarmState :=
  { assistants := []
    config :=
      { debug := true
        managerAssistantOptions :=
          { name := "[AUTOMATED] Swarm Manager"
            model := "gpt-4-1106-preview" } }
    tasks := []
    isLoading := false
    isInitialized := false
    apiKeyConfigured := false
    error := none }

/-- `swarmReducer` (SwarmContext.tsx): the pure projection reducer. -/
def swarmReducer (state : SwarmState) (action : SwarmAction) : SwarmState :=
  match action with
  | .SET_LOADING b => { state with isLoading := b }
  | .SET_ASSISTANTS l => { state with assistants := l }
  | .ADD_ASSISTANT a => { state with assistants := state.assistants ++ [a] }
  | .UPDATE_ASSISTANT a =>
      { state with
        assistants := state.assistants.map fun x => if x.id = a.id then a else x }
  | .REMOVE_ASSISTANT id =>
      { state with assistants := state.assistants.filter fun x => x.id ≠ id }
  | .SET_CONFIG c => { state with config := c }
  | .SET_TASKS l => { state with tasks := l }
  | .ADD_TASK t => { state with tasks := t :: state.tasks }
  | .UPDATE_TASK id u =>
      { state with
        tasks := state.tasks.map fun t => if t.id = id then applyTaskUpdates t u else t }
  | .SET_INITIALIZED b => { state with isInitialized := b }
  | .SET_API_KEY_CONFIGURED b => { state with apiKeyConfigured := b }
  | .SET_ERROR e => { state with error := e }

/-! ## Envelopes and the SwarmProvider message effect

The WebSocket message effect in `SwarmProvider` switches on
`lastMessage.type` and reads fields of `lastMessage.data`.  The payload
shapes actually read by the handler are captured by `EnvData`; a message
whose payload does not carry the fields its handler reads corresponds to
no dispatch, i.e. an unchanged state. -/

/-- Envelope `data` payloads as consumed by the SwarmProvider handler. -/
inductive EnvData where
  | assistantData (a : Assistant)
  | idData (id : String)
  | configData (c : SwarmConfig)
  | taskStartData (taskId : String) (prompt : String) (assistantIds : List String)
  | taskCompleteData (taskId : String) (response : JVal)
  | taskErrorData (taskId : String) (error : String)
  | otherData (v : JVal)
  deriving DecidableEq, Repr

/-- The wire envelope `WebSocketMessage`:
`{ type, data?, timestamp, clientId? }`. -/
structure WSMessage where
  type : String
  data : Option EnvData
  timestamp : String
  clientId : Option String := none
  deriving DecidableEq, Repr

/-- The WebSocket message effect of `SwarmProvider` (SwarmContext.tsx):
folds one received envelope into the projection state via
`swarmReducer`.  `now` is the value of `new Date().toISOString()` at the
moment the `task-started` handler constructs its `Task`.  Types not
listed in the switch, and messages whose `data` guard fails, leave the
state unchanged. -/
def handleMessage (now : String) (st : SwarmState) (m : WSMessage) : SwarmState :=
  match m.type, m.data with
  | "swarm-initialized", _ => swarmReducer st (.SET_INITIALIZED true)
  | "assistant-created", some (.assistantData a) => swarmReducer st (.ADD_ASSISTANT a)
  | "assistant-updated", some (.assistantData a) => swarmReducer st (.UPDATE_ASSISTANT a)
  | "assistant-deleted", some (.idData id) =>
      -- `if (lastMessage.data?.id)`: an empty-string id is falsy in JS
      if id = "" then st else swarmReducer st (.REMOVE_ASSISTANT id)
  | "config-updated", some (.configData c) => swarmReducer st (.SET_CONFIG c)
  | "task-started", some (.taskStartData taskId prompt assistantIds) =>
      swarmReducer st (.ADD_TASK
        { id := taskId, prompt := prompt, assistantIds := assistantIds
          status := .running, createdAt := now })
  | "task-completed", some (.taskCompleteData taskId response) =>
      swarmReducer st (.UPDATE_TASK taskId
        { status := some .completed, result := some response })
  | "task-error", some (.taskErrorData taskId err) =>
      swarmReducer st (.UPDATE_TASK taskId
        { status := some .failed, error := some err })
  | _, _ => st

/-! ## Server side: `SwarmGUIServer` (backend `index.ts`)

The server keeps `clients : Map<string, WebSocketClient>` with
`WebSocketClient = { id, ws, isAlive }`.  Map iteration follows
insertion order, so the registry is modelled as a list of clients.  A
transport handle is modelled by its observable parts: its `readyState`
and whether a `send` on it throws. -/

/-- `WebSocketClient` (backend): one registered connection.
`readyState = 1` is the WebSocket OPEN state; `sendFails` models a
transport whose `ws.send` throws when invoked. -/
structure WSClient where
  id : String
  readyState : Nat
  isAlive : Bool
  sendFails : Bool := false
  deriving DecidableEq, Repr

/-- The serialized broadcast message
`JSON.stringify({ type, data, timestamp })`. -/
structure BroadcastMsg where
  type : String
  data : JVal
  timestamp : String
  deriving DecidableEq, Repr

/-- One run of `broadcast`'s `this.clients.forEach` loop: visits clients
in registry order, skips those whose transport is not OPEN
(`readyState !== 1`), and calls `ws.send` on the rest.  `ws.send` is not
wrapped in any try/catch, so a throwing send propagates out of the
`forEach` callback, aborting the iteration: the function returns the ids
that were sent to before the abort, and whether an exception escaped. -/
def broadcastRun : List WSClient → List String × Bool
  | [] => ([], false)
  | c :: rest =>
      if c.readyState = 1 then
        if c.sendFails then ([], true)
        else
          let r := broadcastRun rest
          (c.id :: r.1, r.2)
      else broadcastRun rest

/-- `broadcast(type, data)` at time `now`: builds the stamped message
and delivers it.  Returns the message, the ids delivered to, whether an
exception escaped, and the (unchanged) registry — the method body only
reads `this.clients`, it never mutates it. -/
def broadcast (clients : List WSClient) (type : String) (data : JVal)
    (now : String) : BroadcastMsg × List String × Bool × List WSClient :=
  (⟨type, data, now⟩, (broadcastRun clients).1, (broadcastRun clients).2, clients)

/-- Registry membership by client id. -/
def idIn (id : String) (clients : List WSClient) : Bool :=
  clients.any fun c => c.id = id

/-! ## Liveness monitor (backend `setInterval` ping loop) -/

/-- One tick of the 30-second ping interval: for each client, if
`!client.isAlive` the transport is terminated and the client deleted
from the map; otherwise `isAlive` is set to `false` and a ping is sent.
Returns the surviving registry and the ids of evicted clients. -/
def monitorTick : List WSClient → List WSClient × List String
  | [] => ([], [])
  | c :: rest =>
      let r := monitorTick rest
      if c.isAlive then ({ c with isAlive := false } :: r.1, r.2)
      else (r.1, c.id :: r.2)

/-- The `pong` handler of a connection: flips that client's `isAlive`
flag back to `true`. -/
def pong (id : String) (clients : List WSClient) : List WSClient :=
  clients.map fun c => if c.id = id then { c with isAlive := true } else c

/-! ## Registry register/unregister (backend connection/close handlers) -/

/-- A registry operation: `register id` models the `connection` handler
(`this.clients.set(clientId, { id: clientId, ws, isAlive: true })` with
a freshly generated uuid), `unregister id` models the `close` handler
(`this.clients.delete(clientId)`). -/
inductive RegOp where
  | register (id : String)
  | unregister (id : String)
  deriving DecidableEq, Repr

/-- Apply one registry operation.  `Map.set` with a new key appends in
iteration order; `Map.delete` removes the entry with that key (a no-op
when the key is absent). -/
def applyRegOp (clients : List WSClient) : RegOp → List WSClient
  | .register id => clients ++ [{ id := id, readyState := 1, isAlive := true }]
  | .unregister id => clients.filter fun c => c.id ≠ id

/-- Run a sequence of registry operations. -/
def runRegOps (clients : List WSClient) : List RegOp → List WSClient
  | [] => clients
  | op :: ops => runRegOps (applyRegOp clients op) ops

/-- Number of `register` operations in a sequence. -/
def registerCount (ops : List RegOp) : Nat :=
  ops.countP fun op => match op with | .register _ => true | .unregister _ => false

/-- Number of `unregister` operations whose id was tracked by the
registry at the moment the operation ran. -/
def effectiveUnregisterCount : List WSClient → List RegOp → Nat
  | _, [] => 0
  | clients, op :: ops =>
      (match op with
       | .unregister id => if idIn id clients then 1 else 0
       | .register _ => 0) +
      effectiveUnregisterCount (applyRegOp clients op) ops

/-- Every `register` in the sequence carries an id that is fresh for the
registry state it runs against (the backend generates ids with
`uuidv4()`). -/
def freshRegisters : List WSClient → List RegOp → Bool
  | _, [] => true
  | clients, op :: ops =>
      (match op with
       | .register id => !idIn id clients
       | .unregister _ => true) &&
      freshRegisters (applyRegOp clients op) ops

/-! ## `delegateTask` (backend) -/

/-- The value `delegateWithPrompt` resolves to. -/
structure DelegateResponse where
  concludedPrimaryRun : JVal
  subRuns : JVal
  deriving DecidableEq, Repr

/-- An envelope broadcast by `delegateTask`, by type and payload. -/
inductive TaskEvent where
  | taskStarted (taskId : String) (prompt : String) (assistantIds : List String)
  | taskCompleted (taskId : String) (parentRun : JVal) (subRuns : JVal)
  | taskError (taskId : String) (error : String)
  deriving DecidableEq, Repr

/-- `delegateTask(taskId, prompt, assistantIds)`: if the OpenAI client
is not initialized the method throws before broadcasting anything and
the catch block broadcasts `task-error`; otherwise it broadcasts
`task-started`, awaits `delegateWithPrompt`, and broadcasts
`task-completed` on success or `task-error` (from the catch block) when
the await rejects.  Returns the ordered list of broadcast envelopes. -/
def delegateTask (clientInitialized : Bool)
    (delegateResult : Except String DelegateResponse)
    (taskId : String) (prompt : String) (assistantIds : List String) :
    List TaskEvent :=
  if clientInitialized then
    .taskStarted taskId prompt assistantIds ::
      (match delegateResult with
       | .ok resp => [.taskCompleted taskId resp.concludedPrimaryRun resp.subRuns]
       | .error e => [.taskError taskId e])
  else
    [.taskError taskId "OpenAI client not initialized"]

/-- Whether an event is a terminal envelope (`task-completed` or
`task-error`) for the given task id. -/
def isTerminalFor (taskId : String) : TaskEvent → Bool
  | .taskCompleted t _ _ => t = taskId
  | .taskError t _ => t = taskId
  | .taskStarted _ _ _ => false

/-! ## ReconnectingClient (frontend `WebSocketContext.tsx`) -/

/-- `ConnectionStatus` union:
`'connecting' | 'connected' | 'disconnected' | 'error'`. -/
inductive ConnStatus where
  | connecting | connected | disconnected | error
  deriving DecidableEq, Repr

/-- The hook state of `WebSocketProvider` relevant to the reconnect
policy: `connectionStatus`, `reconnectAttempts`, `isConnected`. -/
structure ClientState where
  status : ConnStatus
  reconnectAttempts : Nat
  isConnected : Bool
  deriving DecidableEq, Repr

/-- `maxReconnectAttempts = 5`. -/
def maxReconnectAttempts : Nat := 5

/-- The `onopen` handler: marks the client connected and resets the
attempt counter to zero. -/
def onOpen (s : ClientState) : ClientState :=
  { s with isConnected := true, status := .connected, reconnectAttempts := 0 }

/-- The `onclose` handler of a socket created by a `connect` closure
that captured `capturedAttempts` as its `reconnectAttempts` value:
marks the client disconnected; if the captured counter is below the
budget, schedules a reconnect after `Math.pow(2, capturedAttempts) *
1000` ms (returned as `some delay`), otherwise enters the terminal
`error` status with no timer scheduled.  React closures are immutable,
so the handler reads the value captured at the render that created the
`connect` which opened this socket — not the current state. -/
def onClose (capturedAttempts : Nat) (s : ClientState) :
    ClientState × Option Nat :=
  let s1 := { s with isConnected := false, status := .disconnected }
  if capturedAttempts < maxReconnectAttempts then
    (s1, some (2 ^ capturedAttempts * 1000))
  else
    ({ s1 with status := .error }, none)

/-- The scheduled `setTimeout` callback firing:
`setReconnectAttempts(prev => prev + 1)` is a functional update, so it
increments the live counter; the subsequent `connect()` call sets
status to `connecting` and opens a new socket. -/
def reconnectTimerFire (s : ClientState) : ClientState :=
  { s with reconnectAttempts := s.reconnectAttempts + 1, status := .connecting }

/-- One complete failed connection attempt in the actual retry chain.
The mount effect (deps `[]`) invokes the first render's `connect`, and
each `setTimeout` callback invokes the `connect` from its own defining
scope — inductively the first render's — so every socket in the retry
chain is created by the first render's `connect`, whose captured
`reconnectAttempts` is 0.  Its `onclose` therefore always runs with
captured value 0, schedules a reconnect, and the timer later fires. -/
def failCycle (s : ClientState) : ClientState × Option Nat :=
  match onClose 0 s with
  | (s1, some d) => (reconnectTimerFire s1, some d)
  | (s1, none) => (s1, none)

/-- The delays scheduled over `n` consecutive failed attempts of the
retry chain, and the state reached afterwards. -/
def failTrace (s : ClientState) : Nat → List (Option Nat) × ClientState
  | 0 => ([], s)
  | n + 1 =>
      let r := failCycle s
      let rest := failTrace r.1 n
      (r.2 :: rest.1, rest.2)

/-- `sendMessage`'s observable effect: either the message is sent on
the open transport or a warning is logged. -/
inductive SendEffect where
  | sent (message : JVal)
  | warnedNotConnected
  deriving DecidableEq, Repr

/-- `sendMessage(message)`: sends iff `socket?.readyState === OPEN`,
otherwise logs a warning and does nothing — it is a total function (no
throw) and produces no queueing state. -/
def sendMessage (socketReadyState : Option Nat) (message : JVal) : SendEffect :=
  if socketReadyState = some 1 then .sent message else .warnedNotConnected

/-! ## Concrete envelopes used in scenario statements -/

/-- The assistant `{id:"a1",name:"X"}` of the §8 scenario. -/
def assistantA1 : Assistant := { id := "a1", name := "X", model := "gpt-4" }

/-- An `assistant-created` envelope. -/
def createdMsg (a : Assistant) (ts : String) : WSMessage :=
  { type := "assistant-created", data := some (.assistantData a), timestamp := ts }

/-- An `assistant-updated` envelope. -/
def updatedMsg (a : Assistant) (ts : String) : WSMessage :=
  { type := "assistant-updated", data := some (.assistantData a), timestamp := ts }

/-- The JSON object `{ok:true}`. -/
def okTrue : JVal := .jobjCons "ok" (.jbool true) .jobjNil

/-- The scenario envelope `task-started{taskId:"t1",prompt:"p",assistantIds:["a1"]}`. -/
def taskStartedT1 : WSMessage :=
  { type := "task-started", data := some (.taskStartData "t1" "p" ["a1"]),
    timestamp := "ts2" }

/-- The scenario envelope `task-completed{taskId:"t1",response:{ok:true}}`. -/
def taskCompletedT1 : WSMessage :=
  { type := "task-completed", data := some (.taskCompleteData "t1" okTrue),
    timestamp := "ts3" }

/-- The scenario envelope `task-error{taskId:"t2",error:"boom"}`. -/
def taskErrorT2 : WSMessage :=
  { type := "task-error", data := some (.taskErrorData "t2" "boom"),
    timestamp := "ts4" }

/-- The projection state after the three scenario envelopes are applied
in order to `initialState` (the `task-started` handler runs at wall
time `"now2"`). -/
def scenarioState : SwarmState :=
  handleMessage "now3"
    (handleMessage "now2"
      (handleMessage "now1" initialState (createdMsg assistantA1 "ts1"))
      taskStartedT1)
    taskCompletedT1

end SwarmGUI

namespace SwarmGUI

/-! # Theorems -/

/-- Each failed attempt of the retry chain: the `onclose` runs with
captured counter 0, so it schedules a constant 1000 ms delay and the
timer advances the live counter by one while status goes to
`connecting`. -/
lemma failCycle_const (s : ClientState) :
    failCycle s =
      ({ status := .connecting, reconnectAttempts := s.reconnectAttempts + 1,
         isConnected := false }, some 1000) := rfl

/-- The retry chain from any state: after `n + 1` consecutive failures
every scheduled delay was 1000 ms and the client is `connecting` with
the live counter advanced by `n + 1`. -/
lemma failTrace_const (n : Nat) : ∀ s : ClientState,
    failTrace s (n + 1) =
      (List.replicate (n + 1) (some 1000),
       { status := .connecting,
         reconnectAttempts := s.reconnectAttempts + (n + 1),
         isConnected := false }) := by
  induction n with
  | zero => intro s; rfl
  | succ k ih =>
      intro s
      have h1 : failTrace s (k + 2) =
          ((failCycle s).2 :: (failTrace (failCycle s).1 (k + 1)).1,
           (failTrace (failCycle s).1 (k + 1)).2) := rfl
      rw [h1, failCycle_const, ih]
      simp [List.replicate_succ]
      omega

/-- **C1** (code bug). In the source, the `onclose` handler's
`reconnectAttempts` read is the value captured by the `connect` closure
that created the socket; the mount effect and every timer callback
invoke the first render's `connect`, so the captured value is 0 for
every socket of the retry chain.  After any number `n + 1` of
consecutive failures following a successful `connected` transition, the
scheduled delays are therefore all exactly 1000 ms (never 2000, 4000,
8000 or 16000) and the client is still `connecting` — the terminal
`error` branch is unreachable through failure accumulation, even though
the live counter (incremented by the timers' functional updates) has
long exceeded `maxReconnectAttempts`. -/
theorem reconnect_stale_closure_no_backoff (s : ClientState) (n : Nat) :
    (failTrace (onOpen s) (n + 1)).1 = List.replicate (n + 1) (some 1000) ∧
    (failTrace (onOpen s) (n + 1)).2 =
      { status := .connecting, reconnectAttempts := n + 1,
        isConnected := false } := by
  have h : onOpen s = ⟨.connected, 0, true⟩ := rfl
  rw [h, failTrace_const n]
  simp

/-- **C2 counterexample.** Applying the same `assistant-created`
envelope twice to the initial projection state does not equal applying
it once: the handler appends, so the second application duplicates the
assistant instead of overwriting it. -/
theorem assistant_created_replay_duplicates :
    handleMessage "n2"
        (handleMessage "n1" initialState (createdMsg assistantA1 "ts"))
        (createdMsg assistantA1 "ts") ≠
      handleMessage "n1" initialState (createdMsg assistantA1 "ts") ∧
    (handleMessage "n2"
        (handleMessage "n1" initialState (createdMsg assistantA1 "ts"))
        (createdMsg assistantA1 "ts")).assistants =
      [assistantA1, assistantA1] := by
  constructor
  · decide
  · decide

/-- **C2 amended.** Applying an `assistant-created` envelope appends
the assistant to the end of the assistants list unconditionally
(append, not keyed insert); consequently replaying the same envelope
appends a second entry with the same id. -/
theorem assistant_created_appends (now : String) (st : SwarmState)
    (a : Assistant) (ts : String) :
    handleMessage now st (createdMsg a ts) =
      { st with assistants := st.assistants ++ [a] } ∧
    handleMessage now (handleMessage now st (createdMsg a ts)) (createdMsg a ts) =
      { st with assistants := st.assistants ++ [a, a] } := by
  refine ⟨rfl, ?_⟩
  show { st with assistants := (st.assistants ++ [a]) ++ [a] } =
    { st with assistants := st.assistants ++ [a, a] }
  simp

/-- **C6.** The scenario envelopes `assistant-created{id:"a1",name:"X"}`,
`task-started{taskId:"t1",prompt:"p",assistantIds:["a1"]}`,
`task-completed{taskId:"t1",response:{ok:true}}` applied in order to the
initial state yield exactly one assistant `a1` and exactly one task `t1`
with status `completed` and result `{ok:true}`; and applying
`task-error{taskId:"t2",error:"boom"}` with no prior `task-started` for
`t2` leaves the state (in particular the task list) unchanged. -/
theorem scenario_projection :
    scenarioState.assistants = [assistantA1] ∧
    scenarioState.tasks =
      [{ id := "t1", prompt := "p", assistantIds := ["a1"],
         status := .completed, createdAt := "now2",
         result := some okTrue, error := none }] ∧
    handleMessage "now4" scenarioState taskErrorT2 = scenarioState ∧
    handleMessage "now0" initialState taskErrorT2 = initialState := by
  refine ⟨by decide, by decide, by decide, by decide⟩

/-- **C7.** Applying an `assistant-updated` envelope whose assistant id
is not present in the projection leaves the state unchanged, and
applying the same `assistant-updated` envelope twice leaves the state
identical to applying it once. -/
theorem assistant_updated_noop_idempotent (now : String) (st : SwarmState)
    (a : Assistant) (ts : String) :
    ((∀ x ∈ st.assistants, x.id ≠ a.id) →
        handleMessage now st (updatedMsg a ts) = st) ∧
    handleMessage now (handleMessage now st (updatedMsg a ts)) (updatedMsg a ts) =
      handleMessage now st (updatedMsg a ts) := by
  constructor
  · intro habs
    show { st with assistants := st.assistants.map _ } = st
    have : st.assistants.map
        (fun x => if x.id = a.id then a else x) = st.assistants := by
      have h1 : st.assistants.map (fun x => if x.id = a.id then a else x) =
          st.assistants.map id := by
        apply List.map_congr_left
        intro x hx
        simp [habs x hx]
      rw [h1, List.map_id]
    simp [this]
  · show { st with assistants := (st.assistants.map _).map _ } =
      { st with assistants := st.assistants.map _ }
    have : ∀ l : List Assistant,
        (l.map (fun x => if x.id = a.id then a else x)).map
            (fun x => if x.id = a.id then a else x) =
          l.map (fun x => if x.id = a.id then a else x) := by
      intro l
      rw [List.map_map]
      apply List.map_congr_left
      intro x _
      by_cases h : x.id = a.id <;> simp [h]
    simp [this]

/-- **C7 witness.** The theorem applied at the initial state (empty
assistants list, so the absent-id hypothesis holds) for `assistantA1`. -/
theorem assistant_updated_noop_idempotent_witness :
    handleMessage "n" initialState (updatedMsg assistantA1 "t") = initialState :=
  (assistant_updated_noop_idempotent "n" initialState assistantA1 "t").1
    (by decide)

/-- **C9.** `sendMessage` with a transport that is not open is a no-op
apart from the warning effect — it never sends (and the model is a
total function producing no queueing state, matching the absence of any
throw or buffer in the source); with an open transport the message is
sent immediately. -/
theorem sendMessage_at_most_once (rs : Option Nat) (msg : JVal) :
    (rs ≠ some 1 → sendMessage rs msg = .warnedNotConnected) ∧
    (rs = some 1 → sendMessage rs msg = .sent msg) := by
  constructor
  · intro h
    simp [sendMessage, h]
  · intro h
    simp [sendMessage, h]

/-- **C9 witness.** The theorem applied at a closed transport
(`readyState = 3`) and at an open one. -/
theorem sendMessage_at_most_once_witness :
    sendMessage (some 3) (.jstr "m") = .warnedNotConnected ∧
    sendMessage (some 1) (.jstr "m") = .sent (.jstr "m") :=
  ⟨(sendMessage_at_most_once (some 3) (.jstr "m")).1 (by decide),
   (sendMessage_at_most_once (some 1) (.jstr "m")).2 rfl⟩

/-- Characterization of the broadcast delivery loop: the delivered ids
are the open clients of the longest prefix containing no open failing
client, and an exception escapes iff some open client's send throws. -/
lemma broadcastRun_spec (clients : List WSClient) :
    broadcastRun clients =
      (((clients.takeWhile fun c => !(c.readyState == 1 && c.sendFails)).filter
          fun c => c.readyState == 1).map fun c => c.id,
       clients.any fun c => c.readyState == 1 && c.sendFails) := by
  induction clients with
  | nil => rfl
  | cons c rest ih =>
      by_cases h1 : c.readyState = 1
      · by_cases h2 : c.sendFails
        · simp [broadcastRun, h1, h2, List.takeWhile_cons, List.any_cons]
        · simp [broadcastRun, h1, h2, ih, List.takeWhile_cons, List.any_cons,
            List.filter_cons]
      · have hb : (c.readyState == 1) = false := by
          simp [h1]
        simp [broadcastRun, h1, hb, ih, List.takeWhile_cons, List.any_cons,
          List.filter_cons]

/-- **C3 counterexample.** Two registered connections, both open, where
only the first connection's `ws.send` throws: the broadcast loop aborts
with the exception escaping and the second (healthy, open) connection
receives nothing — the failure is not isolated to the failing
connection. -/
theorem broadcast_failure_not_isolated :
    (broadcastRun
        [{ id := "a", readyState := 1, isAlive := true, sendFails := true },
         { id := "b", readyState := 1, isAlive := true, sendFails := false }]).1
      = [] ∧
    (broadcastRun
        [{ id := "a", readyState := 1, isAlive := true, sendFails := true },
         { id := "b", readyState := 1, isAlive := true, sendFails := false }]).2
      = true := by
  refine ⟨by decide, by decide⟩

/-- **C3 amended.** `broadcast` wraps `ws.send` in no try/catch: a
throwing send propagates out of the iteration.  Exactly the open
clients in the prefix before the first open failing client receive the
envelope (closed connections are skipped), every open client after the
first failure receives nothing, and an exception escapes iff some open
client's send throws. -/
theorem broadcast_send_failure_aborts (clients : List WSClient) :
    broadcastRun clients =
      (((clients.takeWhile fun c => !(c.readyState == 1 && c.sendFails)).filter
          fun c => c.readyState == 1).map fun c => c.id,
       clients.any fun c => c.readyState == 1 && c.sendFails) :=
  broadcastRun_spec clients

/-- **C4.** When no open client's transport throws on send (the normal
operating mode the claim describes), `broadcast` stamps the envelope
with the current timestamp, delivers it to exactly the open
connections in registry order, skips the closed ones with no error
escaping, and returns the registry unchanged — it never mutates the
connection collection. -/
theorem broadcast_frame_open_only (clients : List WSClient) (type : String)
    (data : JVal) (now : String)
    (hok : ∀ c ∈ clients, c.readyState = 1 → c.sendFails = false) :
    broadcast clients type data now =
      (⟨type, data, now⟩,
       (clients.filter fun c => c.readyState = 1).map fun c => c.id,
       false, clients) := by
  have htake : (clients.takeWhile fun c => !(c.readyState == 1 && c.sendFails))
      = clients := by
    apply List.takeWhile_eq_self_iff.mpr
    intro c hc
    by_cases h1 : c.readyState = 1
    · simp [h1, hok c hc h1]
    · simp [h1]
  have hany : (clients.any fun c => c.readyState == 1 && c.sendFails) = false := by
    simp only [List.any_eq_false]
    intro c hc
    by_cases h1 : c.readyState = 1
    · simp [h1, hok c hc h1]
    · simp [h1]
  have hfilter : (clients.filter fun c => c.readyState == 1)
      = clients.filter fun c => c.readyState = 1 := by
    apply List.filter_congr
    intro c _
    by_cases h1 : c.readyState = 1 <;> simp [h1]
  simp only [broadcast, broadcastRun_spec, htake, hany, hfilter]

/-- **C4 witness.** The theorem applied to a registry of two open and
one closed connection: the two open ids are delivered to, the closed
one is skipped, no error, registry returned unchanged. -/
theorem broadcast_frame_open_only_witness :
    broadcast
        [{ id := "a", readyState := 1, isAlive := true },
         { id := "b", readyState := 3, isAlive := true },
         { id := "c", readyState := 1, isAlive := false }]
        "config-updated" (.jbool true) "2024-01-01T00:00:00.000Z" =
      (⟨"config-updated", .jbool true, "2024-01-01T00:00:00.000Z"⟩,
       ["a", "c"], false,
       [{ id := "a", readyState := 1, isAlive := true },
        { id := "b", readyState := 3, isAlive := true },
        { id := "c", readyState := 1, isAlive := false }]) := by
  have h := broadcast_frame_open_only
    [{ id := "a", readyState := 1, isAlive := true },
     { id := "b", readyState := 3, isAlive := true },
     { id := "c", readyState := 1, isAlive := false }]
    "config-updated" (.jbool true) "2024-01-01T00:00:00.000Z"
    (by decide)
  rw [h]
  decide

/-- A client that answered the last probe (`isAlive = true`) survives
the current monitor tick (with its flag flipped to `false`). -/
lemma monitorTick_keeps_alive (clients : List WSClient) (c : WSClient)
    (hc : c ∈ clients) (ha : c.isAlive = true) :
    idIn c.id (monitorTick clients).1 = true := by
  induction clients with
  | nil => cases hc
  | cons d rest ih =>
      rcases List.mem_cons.mp hc with h | h
      · subst h
        simp [monitorTick, ha, idIn]
      · by_cases hd : d.isAlive
        · have := ih h
          simp [monitorTick, hd, idIn, List.any_cons] at this ⊢
          exact Or.inr this
        · have := ih h
          simpa [monitorTick, hd] using this

/-- No tick survivor carries an id that was flagged unresponsive on
every entry bearing it. -/
lemma monitorTick_no_survivor_with_id (clients : List WSClient) (cid : String)
    (hdead : ∀ e ∈ clients, e.id = cid → e.isAlive = false) :
    idIn cid (monitorTick clients).1 = false := by
  induction clients with
  | nil => simp [monitorTick, idIn]
  | cons e rest ih =>
      have hdeadRest : ∀ x ∈ rest, x.id = cid → x.isAlive = false :=
        fun x hx => hdead x (List.mem_cons_of_mem e hx)
      by_cases he : e.isAlive
      · have hene : e.id ≠ cid := by
          intro hh
          exact absurd (hdead e (List.mem_cons_self e rest) hh) (by simp [he])
        have := ih hdeadRest
        simp [monitorTick, he, idIn, List.any_cons, hene]
        simpa [idIn] using this
      · have := ih hdeadRest
        simpa [monitorTick, he] using this

/-- A registered client whose liveness flag is still down when the tick
runs has its id reported among the evicted ids of that tick. -/
lemma monitorTick_evicted_mem (clients : List WSClient) (c : WSClient)
    (hc : c ∈ clients)
    (hdead : ∀ d ∈ clients, d.id = c.id → d.isAlive = false) :
    c.id ∈ (monitorTick clients).2 := by
  induction clients with
  | nil => cases hc
  | cons d rest ih =>
      have hdeadRest : ∀ e ∈ rest, e.id = c.id → e.isAlive = false :=
        fun e he => hdead e (List.mem_cons_of_mem d he)
      by_cases hd : d.isAlive
      · have hdne : d.id ≠ c.id := by
          intro h
          exact absurd (hdead d (List.mem_cons_self d rest) h) (by simp [hd])
        have hcr : c ∈ rest := by
          rcases List.mem_cons.mp hc with h | h
          · exact absurd rfl (h ▸ hdne)
          · exact h
        simpa [monitorTick, hd] using ih hcr hdeadRest
      · rcases List.mem_cons.mp hc with h | h
        · subst h
          simp [monitorTick, hd]
        · simp [monitorTick, hd]
          exact Or.inr (ih h hdeadRest)

/-- Every tick survivor has its liveness flag set to `false`. -/
lemma monitorTick_survivors_flagged (clients : List WSClient) :
    ∀ s ∈ (monitorTick clients).1, s.isAlive = false := by
  induction clients with
  | nil => intro s hs; cases hs
  | cons d rest ih =>
      intro s hs
      by_cases hd : d.isAlive
      · simp [monitorTick, hd] at hs
        rcases hs with h | h
        · simp [h]
        · exact ih s h
      · simp [monitorTick, hd] at hs
        exact ih s hs

/-- A tick over an all-dead registry evicts everyone. -/
lemma monitorTick_all_dead (clients : List WSClient)
    (h : ∀ s ∈ clients, s.isAlive = false) :
    (monitorTick clients).1 = [] := by
  induction clients with
  | nil => rfl
  | cons d rest ih =>
      have hd : d.isAlive = false := h d (List.mem_cons_self d rest)
      simp [monitorTick, hd]
      exact ih fun s hs => h s (List.mem_cons_of_mem d hs)

/-- **C5.** The two-phase liveness protocol: a registered client that
responded to the last probe (`isAlive = true`) is never evicted by the
current tick; a client whose id is still flagged unresponsive when the
tick runs is terminated and unregistered by that tick; and absent any
pong, no client survives two consecutive ticks — an unresponsive
connection's lifetime is bounded by two monitor intervals. -/
theorem liveness_two_phase_eviction (clients : List WSClient) (c : WSClient)
    (hc : c ∈ clients) :
    (c.isAlive = true → idIn c.id (monitorTick clients).1 = true) ∧
    ((∀ d ∈ clients, d.id = c.id → d.isAlive = false) →
        idIn c.id (monitorTick clients).1 = false ∧
        c.id ∈ (monitorTick clients).2) ∧
    idIn c.id (monitorTick (monitorTick clients).1).1 = false := by
  refine ⟨fun ha => monitorTick_keeps_alive clients c hc ha,
    fun hdead => ⟨monitorTick_no_survivor_with_id clients c.id hdead,
      monitorTick_evicted_mem clients c hc hdead⟩, ?_⟩
  rw [monitorTick_all_dead (monitorTick clients).1
    (monitorTick_survivors_flagged clients)]
  simp [monitorTick, idIn]

/-- **C5 witness.** A registry with one responsive client `"x"` and one
unresponsive client `"y"`: the tick keeps `"x"`, terminates and
unregisters `"y"`, and neither survives two probe-unanswered ticks. -/
theorem liveness_two_phase_eviction_witness :
    idIn "x" (monitorTick
      [{ id := "x", readyState := 1, isAlive := true },
       { id := "y", readyState := 1, isAlive := false }]).1 = true ∧
    idIn "y" (monitorTick
      [{ id := "x", readyState := 1, isAlive := true },
       { id := "y", readyState := 1, isAlive := false }]).1 = false ∧
    "y" ∈ (monitorTick
      [{ id := "x", readyState := 1, isAlive := true },
       { id := "y", readyState := 1, isAlive := false }]).2 ∧
    idIn "x" (monitorTick (monitorTick
      [{ id := "x", readyState := 1, isAlive := true },
       { id := "y", readyState := 1, isAlive := false }]).1).1 = false :=
  ⟨(liveness_two_phase_eviction _
      { id := "x", readyState := 1, isAlive := true } (by decide)).1 rfl,
   ((liveness_two_phase_eviction _
      { id := "y", readyState := 1, isAlive := false } (by decide)).2.1
      (by decide)).1,
   ((liveness_two_phase_eviction _
      { id := "y", readyState := 1, isAlive := false } (by decide)).2.1
      (by decide)).2,
   (liveness_two_phase_eviction _
      { id := "x", readyState := 1, isAlive := true } (by decide)).2.2⟩

/-- Deleting an id that is not tracked leaves the registry unchanged. -/
lemma unregister_absent_noop (clients : List WSClient) (id : String)
    (h : idIn id clients = false) :
    applyRegOp clients (.unregister id) = clients := by
  show clients.filter _ = clients
  apply List.filter_eq_self.mpr
  intro c hc
  simp only [idIn, List.any_eq_false] at h
  have := h c hc
  simp at this
  simp [this]

/-- Deleting a tracked id from a duplicate-free registry removes
exactly one entry. -/
lemma unregister_present_length (clients : List WSClient) (id : String)
    (hnodup : (clients.map fun c => c.id).Nodup)
    (hin : idIn id clients = true) :
    (applyRegOp clients (.unregister id)).length + 1 = clients.length := by
  induction clients with
  | nil => simp [idIn] at hin
  | cons d rest ih =>
      have hnodup2 : (∀ x ∈ rest, ¬x.id = d.id) ∧
          (rest.map fun c => c.id).Nodup := by
        simpa using hnodup
      simp only [applyRegOp, List.filter_cons, List.length_cons]
      by_cases hd : d.id = id
      · have habs : idIn id rest = false := by
          simp only [idIn, List.any_eq_false, decide_eq_true_eq]
          intro c hc hcid
          exact hnodup2.1 c hc (by rw [hcid, hd])
        have hrest := unregister_absent_noop rest id habs
        simp only [applyRegOp] at hrest
        rw [if_neg (by simp [hd])]
        rw [hrest]
      · have hinrest : idIn id rest = true := by
          simp only [idIn, List.any_cons, Bool.or_eq_true,
            decide_eq_true_eq] at hin
          rcases hin with h | h
          · exact absurd h hd
          · simpa [idIn] using h
        have hih := ih hnodup2.2 hinrest
        simp only [applyRegOp, decide_not] at hih
        simp [hd, decide_not]
        omega

/-- Registry operations preserve duplicate-freedom of ids, provided
registered ids are fresh. -/
lemma applyRegOp_nodup (clients : List WSClient) (op : RegOp)
    (hnodup : (clients.map fun c => c.id).Nodup)
    (hop : ∀ id, op = .register id → idIn id clients = false) :
    ((applyRegOp clients op).map fun c => c.id).Nodup := by
  cases op with
  | register id =>
      have habs := hop id rfl
      simp only [idIn, List.any_eq_false] at habs
      simp only [applyRegOp]
      rw [List.map_append]
      rw [List.nodup_append]
      refine ⟨hnodup, by simp, ?_⟩
      intro x hx hx2
      rw [List.mem_map] at hx
      obtain ⟨c, hc, hcid⟩ := hx
      have hne := habs c hc
      simp only [decide_eq_true_eq] at hne
      simp only [List.map_cons, List.map_nil, List.mem_singleton] at hx2
      exact hne (hcid.symm ▸ hx2)
  | unregister id =>
      show ((clients.filter _).map fun c => c.id).Nodup
      exact ((List.filter_sublist clients).map fun c => c.id).nodup hnodup

/-- The registry count invariant over an operation sequence: final size
plus effective unregisters equals initial size plus registers. -/
lemma runRegOps_count (ops : List RegOp) :
    ∀ clients : List WSClient, (clients.map fun c => c.id).Nodup →
      freshRegisters clients ops = true →
      (runRegOps clients ops).length + effectiveUnregisterCount clients ops =
        clients.length + registerCount ops := by
  induction ops with
  | nil =>
      intro clients _ _
      simp [runRegOps, effectiveUnregisterCount, registerCount]
  | cons op ops ih =>
      intro clients hnodup hfresh
      cases op with
      | register id =>
          simp only [freshRegisters, Bool.and_eq_true] at hfresh
          obtain ⟨h1, h2⟩ := hfresh
          have habs : idIn id clients = false := by
            simpa using h1
          have hnodup' := applyRegOp_nodup clients (.register id) hnodup
            (fun id' h => by cases h; exact habs)
          have hih := ih (applyRegOp clients (.register id)) hnodup' h2
          have hlen : (applyRegOp clients (.register id)).length =
              clients.length + 1 := by
            simp [applyRegOp]
          have hrc : registerCount (.register id :: ops) =
              registerCount ops + 1 := by
            simp [registerCount, List.countP_cons]
          have heff : effectiveUnregisterCount clients (.register id :: ops) =
              effectiveUnregisterCount (applyRegOp clients (.register id)) ops := by
            simp [effectiveUnregisterCount]
          have hrun : runRegOps clients (.register id :: ops) =
              runRegOps (applyRegOp clients (.register id)) ops := rfl
          rw [hrun, heff, hrc]
          omega
      | unregister id =>
          simp only [freshRegisters, Bool.and_eq_true] at hfresh
          obtain ⟨-, h2⟩ := hfresh
          have hnodup' := applyRegOp_nodup clients (.unregister id) hnodup
            (fun id' h => by cases h)
          have hih := ih (applyRegOp clients (.unregister id)) hnodup' h2
          have hrc : registerCount (.unregister id :: ops) =
              registerCount ops := by
            simp [registerCount, List.countP_cons]
          have hrun : runRegOps clients (.unregister id :: ops) =
              runRegOps (applyRegOp clients (.unregister id)) ops := rfl
          by_cases hin : idIn id clients = true
          · have hlen := unregister_present_length clients id hnodup hin
            have heff : effectiveUnregisterCount clients (.unregister id :: ops) =
                1 + effectiveUnregisterCount
                  (applyRegOp clients (.unregister id)) ops := by
              simp [effectiveUnregisterCount, hin]
            rw [hrun, heff, hrc]
            omega
          · have hin' : idIn id clients = false := by
              simpa using hin
            have hnoop := unregister_absent_noop clients id hin'
            have heff : effectiveUnregisterCount clients (.unregister id :: ops) =
                effectiveUnregisterCount
                  (applyRegOp clients (.unregister id)) ops := by
              simp [effectiveUnregisterCount, hin']
            rw [hnoop] at hih
            rw [hrun, heff, hrc, hnoop]
            omega

/-- **C8.** For every sequence of register/unregister operations over a
duplicate-free registry whose registered ids are fresh (the backend
keys entries by `uuidv4()`), the resulting registry size plus the
number of unregisters of then-tracked ids equals the initial size plus
the number of registers — i.e. size = registers − effective
unregisters when starting from empty; and unregistering an unknown id
leaves the registry unchanged and raises no error. -/
theorem registry_register_unregister_count (clients : List WSClient)
    (ops : List RegOp)
    (hnodup : (clients.map fun c => c.id).Nodup)
    (hfresh : freshRegisters clients ops = true) :
    (runRegOps clients ops).length + effectiveUnregisterCount clients ops =
      clients.length + registerCount ops ∧
    ∀ id, idIn id clients = false →
      applyRegOp clients (.unregister id) = clients :=
  ⟨runRegOps_count ops clients hnodup hfresh,
   fun id h => unregister_absent_noop clients id h⟩

/-- **C8 witness.** Starting from the empty registry: register `"a"`,
register `"b"`, unregister `"a"` (tracked), unregister `"zz"` (unknown,
a no-op): final size 1 plus 1 effective unregister equals 2 registers;
and unregistering `"zz"` from the empty registry returns it unchanged. -/
theorem registry_register_unregister_count_witness :
    (runRegOps []
        [.register "a", .register "b", .unregister "a", .unregister "zz"]).length +
      effectiveUnregisterCount []
        [.register "a", .register "b", .unregister "a", .unregister "zz"] =
      List.length ([] : List WSClient) +
        registerCount
          [.register "a", .register "b", .unregister "a", .unregister "zz"] ∧
    applyRegOp ([] : List WSClient) (.unregister "zz") = [] :=
  ⟨(registry_register_unregister_count []
      [.register "a", .register "b", .unregister "a", .unregister "zz"]
      (by decide) (by decide)).1,
   (registry_register_unregister_count []
      [.register "a", .register "b", .unregister "a", .unregister "zz"]
      (by decide) (by decide)).2 "zz" (by decide)⟩

/-- **C10.** Every invocation of `delegateTask` broadcasts exactly one
terminal envelope (`task-completed` or `task-error`) carrying its
task id; and whenever the OpenAI client is initialized at the start of
the call, a `task-started` envelope with the same task id is broadcast
first, followed only by that single terminal envelope. -/
theorem delegateTask_one_terminal (clientInitialized : Bool)
    (delegateResult : Except String DelegateResponse)
    (taskId prompt : String) (assistantIds : List String) :
    (delegateTask clientInitialized delegateResult taskId prompt
        assistantIds).countP (isTerminalFor taskId) = 1 ∧
    (clientInitialized = true → ∃ ev,
        delegateTask clientInitialized delegateResult taskId prompt
            assistantIds =
          [.taskStarted taskId prompt assistantIds, ev] ∧
        isTerminalFor taskId ev = true) := by
  cases clientInitialized with
  | false =>
      refine ⟨?_, fun h => by cases h⟩
      simp [delegateTask, isTerminalFor]
  | true =>
      cases delegateResult with
      | ok r =>
          refine ⟨?_, fun _ =>
            ⟨.taskCompleted taskId r.concludedPrimaryRun r.subRuns, rfl,
             by simp [isTerminalFor]⟩⟩
          simp [delegateTask, isTerminalFor, List.countP_cons]
      | error e =>
          refine ⟨?_, fun _ =>
            ⟨.taskError taskId e, rfl, by simp [isTerminalFor]⟩⟩
          simp [delegateTask, isTerminalFor, List.countP_cons]

/-- **C10 witness.** The theorem applied to an initialized client whose
delegation rejects: the trace is `task-started` followed by the single
terminal `task-error`. -/
theorem delegateTask_one_terminal_witness :
    (delegateTask true (.error "boom") "t9" "p" ["a"]).countP
        (isTerminalFor "t9") = 1 ∧
    ∃ ev, delegateTask true (.error "boom") "t9" "p" ["a"] =
        [.taskStarted "t9" "p" ["a"], ev] ∧ isTerminalFor "t9" ev = true :=
  ⟨(delegateTask_one_terminal true (.error "boom") "t9" "p" ["a"]).1,
   (delegateTask_one_terminal true (.error "boom") "t9" "p" ["a"]).2 rfl⟩

end SwarmGUI
